import Mathlib

/-!
Shallow embedding of the claude-nook / claude-island hook scripts
(src/ClaudeNook/Resources/claude-nook-state.py and
src/claude-island/ClaudeIsland/Resources/claude-island-state.py).

Bytes on the wire are modelled as `List Nat` (each entry one byte).
Python exceptions are modelled explicitly; network effects (connect,
recv, sendall, close) are driven by a script describing the peer and
recorded in a trace of actions.
-/

namespace ClaudeNook

/-- One byte string, each entry a byte value 0..255. -/
abbrev Bytes := List Nat

/-- Python exceptions that the scripts can raise or catch. -/
inductive PyExc where
  | socketTimeout
  | connectionRefused
  | osError
  | fileNotFound
  | jsonDecodeError
  | unicodeDecodeError
  | unboundLocalError
  deriving DecidableEq, Repr

/-- Characters Python str.strip removes (ASCII whitespace). -/
def isSpaceChar (c : Char) : Bool :=
  c = ' ' || c = '\t' || c = '\n' || c = '\x0d' || c = Char.ofNat 11 || c = Char.ofNat 12

/-- Model of Python str.strip: drop whitespace from both ends. -/
def pyStrip (cs : List Char) : List Char :=
  ((cs.dropWhile isSpaceChar).reverse.dropWhile isSpaceChar).reverse

/-- Whether a byte is a UTF-8 continuation byte (0x80..0xBF). -/
def isCont (b : Nat) : Bool := 128 ≤ b && b < 192

/-- Model of Python bytes.decode(): strict UTF-8 decoding, rejecting
stray continuation bytes, overlong encodings, surrogates and
code points above 0x10FFFF; returns none where Python raises
UnicodeDecodeError. -/
def utf8DecodeAux : List Nat → Option (List Char)
  | [] => some []
  | b :: rest =>
    if b < 128 then
      (utf8DecodeAux rest).map (fun cs => Char.ofNat b :: cs)
    else if b < 194 then
      none
    else if b < 224 then
      match rest with
      | c1 :: rest2 =>
        if isCont c1 then
          let cp := (b - 192) * 64 + (c1 - 128)
          (utf8DecodeAux rest2).map (fun cs => Char.ofNat cp :: cs)
        else none
      | [] => none
    else if b < 240 then
      match rest with
      | c1 :: c2 :: rest3 =>
        if isCont c1 && isCont c2 then
          let cp := (b - 224) * 4096 + (c1 - 128) * 64 + (c2 - 128)
          if 2048 ≤ cp && ¬ (55296 ≤ cp && cp ≤ 57343) then
            (utf8DecodeAux rest3).map (fun cs => Char.ofNat cp :: cs)
          else none
        else none
      | _ => none
    else if b < 245 then
      match rest with
      | c1 :: c2 :: c3 :: rest4 =>
        if isCont c1 && isCont c2 && isCont c3 then
          let cp := (b - 240) * 262144 + (c1 - 128) * 4096 + (c2 - 128) * 64 + (c3 - 128)
          if 65536 ≤ cp && cp ≤ 1114111 then
            (utf8DecodeAux rest4).map (fun cs => Char.ofNat cp :: cs)
          else none
        else none
      | _ => none
    else none

/-- Decode a byte string to its character list, none on invalid UTF-8. -/
def utf8Decode (l : Bytes) : Option (List Char) := utf8DecodeAux l

/-- Value of a nonempty all-digit character list. -/
def digitsVal (ds : List Char) : Option Int :=
  if ds ≠ [] ∧ ds.all Char.isDigit then
    some (ds.foldl (fun acc c => acc * 10 + ((c.toNat - 48 : Nat) : Int)) 0)
  else none

/-- Model of Python int(str): optional surrounding whitespace, optional
sign, decimal digits; none where Python raises ValueError.  (Python
additionally accepts underscore digit separators, which no input in
this development uses; they are not modelled.) -/
def pyIntChars (cs : List Char) : Option Int :=
  match pyStrip cs with
  | [] => none
  | '+' :: ds => digitsVal ds
  | '-' :: ds => (digitsVal ds).map (fun n => -n)
  | ds => digitsVal ds

/-- Model of Python str.split on a dot: split at every dot, keeping
empty fields. -/
def splitDotsAux (acc : List Char) : List Char → List (List Char)
  | [] => [acc.reverse]
  | c :: rest =>
    if c = '.' then acc.reverse :: splitDotsAux [] rest
    else splitDotsAux (c :: acc) rest

/-- is_tailscale_ip from claude-nook-state.py: the string is split on
dots; with exactly four fields whose first parses as 100 and whose
second parses into 64..127 the address is in the Tailscale CGNAT
range; a ValueError from either int() yields False. -/
def is_tailscale_ip (ip : String) : Bool :=
  let parts := splitDotsAux [] ip.data
  if parts.length ≠ 4 then false
  else
    match pyIntChars (parts.getD 0 []), pyIntChars (parts.getD 1 []) with
    | some first, some second => first == 100 && decide (64 ≤ second) && decide (second ≤ 127)
    | _, _ => false

/-- The host-resolution fields of the Nook ConnectionConfig, together
with an instrumentation counter for discover_via_bonjour invocations. -/
structure HostState where
  host : String
  port : Nat
  discoveredHost : Option String
  discoveryAttempted : Bool
  discoveryCalls : Nat
  deriving DecidableEq, Repr

/-- discover_via_bonjour from claude-nook-state.py: the dns-sd probe
result is discarded and the function always returns (None, None). -/
def discoverViaBonjour : Option String × Option Nat := (none, none)

/-- Python x or y for an optional string (None and the empty string
are falsy). -/
def pyOrStr : Option String → String → String
  | some s, d => if s = "" then d else s
  | none, d => d

/-- ConnectionConfig.get_host from claude-nook-state.py: an explicitly
configured host wins; otherwise discovery runs at most once, its
result (and port, when reported nonzero) is cached, and the cached
host or the loopback address is returned. -/
def getHost (st : HostState) : String × HostState :=
  if st.host ≠ "" then (st.host, st)
  else if ¬ st.discoveryAttempted then
    let st1 : HostState :=
      { st with discoveryAttempted := true, discoveryCalls := st.discoveryCalls + 1 }
    let dh := discoverViaBonjour.1
    let dp := discoverViaBonjour.2
    let st2 : HostState :=
      match dh with
      | some h =>
        { st1 with discoveredHost := some h,
                   port := match dp with
                           | some p => if p ≠ 0 then p else st1.port
                           | none => st1.port }
      | none => st1
    (pyOrStr st2.discoveredHost "127.0.0.1", st2)
  else (pyOrStr st.discoveredHost "127.0.0.1", st)

/-- Network actions performed by a connection attempt, in order. -/
inductive Action where
  | connect (host : String) (port : Nat)
  | connectUnix (path : String)
  | recv (bufsize : Nat)
  | sendAuth (line : String)
  | sendPayload
  | close
  deriving DecidableEq, Repr

/-- Outcome of one sock.recv call, scripted by the test peer. -/
inductive RecvOutcome where
  | data (b : Bytes)
  | timeout
  | osErr
  deriving DecidableEq, Repr

/-- Outcome of the sock.connect call. -/
inductive ConnectOutcome where
  | ok
  | timeout
  | refused
  | osErr
  | fileNotFound
  deriving DecidableEq, Repr

/-- Remaining scripted outcomes for recv and sendall calls.  A recv
past the end of the script times out (the peer stays silent); a send
past the end of the script succeeds. -/
structure NetState where
  recvs : List RecvOutcome
  sends : List Bool
  deriving DecidableEq, Repr

/-- Script for one connection attempt. -/
structure TcpScript where
  connect : ConnectOutcome
  net : NetState
  deriving DecidableEq, Repr

/-- Consume the next scripted recv outcome. -/
def doRecv (st : NetState) : RecvOutcome × NetState :=
  match st.recvs with
  | [] => (.timeout, st)
  | o :: rest => (o, { st with recvs := rest })

/-- Consume the next scripted sendall outcome; true means the call
raises OSError. -/
def doSend (st : NetState) : Bool × NetState :=
  match st.sends with
  | [] => (false, st)
  | b :: rest => (b, { st with recvs := st.recvs, sends := rest })

/-- Result of a Python function call: a normal return or an uncaught
exception propagating to the caller. -/
inductive PyRes (α : Type) where
  | ret (v : Option α)
  | raise (e : PyExc)
  deriving DecidableEq, Repr

/-- Exceptions caught by the except clauses of send_via_tcp and
send_via_socket: socket.timeout, ConnectionRefusedError and
FileNotFoundError are OSError subclasses, and json.JSONDecodeError is
caught explicitly; UnicodeDecodeError is caught by neither function. -/
def handlerCatches : PyExc → Bool
  | .socketTimeout => true
  | .connectionRefused => true
  | .osError => true
  | .fileNotFound => true
  | .jsonDecodeError => true
  | .unicodeDecodeError => false
  | .unboundLocalError => false

/-- Exit of the auth-response accumulation loop. -/
inductive AuthRes where
  | line (b : Bytes)
  | closedDuringAuth
  | exc (e : PyExc)
  deriving DecidableEq, Repr

/-- The while loop of send_via_tcp that accumulates the auth response
in 64-byte recv chunks until a newline byte is present; an empty chunk
means the peer closed the connection. -/
def tcpAuthLoop (acc : Bytes) (recvs : List RecvOutcome) :
    AuthRes × List RecvOutcome × List Action :=
  if 10 ∈ acc then (.line acc, recvs, [])
  else
    match recvs with
    | [] => (.exc .socketTimeout, [], [.recv 64])
    | o :: rest =>
      match o with
      | .timeout => (.exc .socketTimeout, rest, [.recv 64])
      | .osErr => (.exc .osError, rest, [.recv 64])
      | .data b =>
        if b = [] then (.closedDuringAuth, rest, [.recv 64])
        else
          let r := tcpAuthLoop (acc ++ b) rest
          (r.1, r.2.1, .recv 64 :: r.2.2)

/-- The shared payload-and-reply tail of send_via_tcp and
send_via_socket: sendall the JSON payload; when a response is awaited,
recv up to 4096 bytes, close, and parse a nonempty reply; otherwise
close.  json.loads failures surface as JSONDecodeError, invalid UTF-8
as UnicodeDecodeError. -/
def tcpFinish {α : Type} (wait : Bool) (jsonLoads : List Char → Except Unit α)
    (st : NetState) : Except PyExc (Option α) × NetState × List Action :=
  let s1 := doSend st
  if s1.1 then (.error .osError, s1.2, [.sendPayload])
  else if wait then
    let r1 := doRecv s1.2
    match r1.1 with
    | .timeout => (.error .socketTimeout, r1.2, [.sendPayload, .recv 4096])
    | .osErr => (.error .osError, r1.2, [.sendPayload, .recv 4096])
    | .data b =>
      if b = [] then (.ok none, r1.2, [.sendPayload, .recv 4096, .close])
      else
        match utf8Decode b with
        | none => (.error .unicodeDecodeError, r1.2, [.sendPayload, .recv 4096, .close])
        | some cs =>
          match jsonLoads cs with
          | .error _ => (.error .jsonDecodeError, r1.2, [.sendPayload, .recv 4096, .close])
          | .ok v => (.ok (some v), r1.2, [.sendPayload, .recv 4096, .close])
  else (.ok none, s1.2, [.sendPayload, .close])

/-- The explicit authentication exchange shared by both variants:
send one AUTH line, run the accumulation loop, compare the trimmed
reply with OK, and on success fall through to the payload tail. -/
def tcpAuthPhase {α : Type} (token : String) (wait : Bool)
    (jsonLoads : List Char → Except Unit α) (st : NetState) :
    Except PyExc (Option α) × NetState × List Action :=
  let authAct := Action.sendAuth ("AUTH " ++ token ++ "\n")
  let s1 := doSend st
  if s1.1 then (.error .osError, s1.2, [authAct])
  else
    let lr := tcpAuthLoop [] s1.2.recvs
    let st2 : NetState := { s1.2 with recvs := lr.2.1 }
    match lr.1 with
    | .closedDuringAuth => (.ok none, st2, authAct :: lr.2.2 ++ [.close])
    | .exc e => (.error e, st2, authAct :: lr.2.2)
    | .line b =>
      match utf8Decode b with
      | none => (.error .unicodeDecodeError, st2, authAct :: lr.2.2)
      | some cs =>
        if pyStrip cs = "OK".data then
          let fr := tcpFinish wait jsonLoads st2
          (fr.1, fr.2.1, authAct :: lr.2.2 ++ fr.2.2)
        else (.ok none, st2, authAct :: lr.2.2 ++ [.close])

/-- Result of the 0.5-second greeting probe of the Nook variant: only
socket.timeout is caught by the inner handler; an empty recv result is
falsy and skips the decode; a nonempty one is decoded and its stripped
text compared with OK. -/
def greetingTrusted : RecvOutcome → Except PyExc Bool
  | .timeout => .ok false
  | .osErr => .error .osError
  | .data b =>
    if b = [] then .ok false
    else
      match utf8Decode b with
      | none => .error .unicodeDecodeError
      | some cs => .ok (pyStrip cs == "OK".data)

/-- Connection fields read by the Nook send_via_tcp. -/
structure NookCfg where
  hostCfg : HostState
  token : String
  deriving DecidableEq, Repr

/-- Body (the try block) of send_via_tcp from claude-nook-state.py:
resolve the host, connect, probe 0.5s for an unsolicited OK greeting,
and either proceed directly to the payload (auto-trusted), abort when
no token is configured, or run the explicit AUTH exchange. -/
def sendViaTcpNookBody {α : Type} (cfg : NookCfg) (script : TcpScript) (wait : Bool)
    (jsonLoads : List Char → Except Unit α) : Except PyExc (Option α) × List Action :=
  let hp := getHost cfg.hostCfg
  let cAct := Action.connect hp.1 hp.2.port
  match script.connect with
  | .timeout => (.error .socketTimeout, [cAct])
  | .refused => (.error .connectionRefused, [cAct])
  | .osErr => (.error .osError, [cAct])
  | .fileNotFound => (.error .fileNotFound, [cAct])
  | .ok =>
    let r1 := doRecv script.net
    match greetingTrusted r1.1 with
    | .error e => (.error e, [cAct, .recv 64])
    | .ok trusted =>
      if trusted then
        let fr := tcpFinish wait jsonLoads r1.2
        (fr.1, cAct :: .recv 64 :: fr.2.2)
      else if cfg.token = "" then (.ok none, [cAct, .recv 64, .close])
      else
        let ar := tcpAuthPhase cfg.token wait jsonLoads r1.2
        (ar.1, cAct :: .recv 64 :: ar.2.2)

/-- The shared except clauses of send_via_tcp and send_via_socket:
caught exceptions become a None return, anything else propagates. -/
def applyHandlers {α : Type} : Except PyExc (Option α) × List Action → PyRes α × List Action
  | (.ok v, t) => (.ret v, t)
  | (.error e, t) => if handlerCatches e then (.ret none, t) else (.raise e, t)

/-- send_via_tcp from claude-nook-state.py with its except clauses
applied. -/
def sendViaTcpNook {α : Type} (cfg : NookCfg) (script : TcpScript) (wait : Bool)
    (jsonLoads : List Char → Except Unit α) : PyRes α × List Action :=
  applyHandlers (sendViaTcpNookBody cfg script wait jsonLoads)

/-- Connection fields read by the Island send_via_tcp. -/
structure IslandCfg where
  host : String
  port : Nat
  token : String
  deriving DecidableEq, Repr

/-- Body of send_via_tcp from claude-island-state.py: a missing token
short-circuits before the try block and before any socket call;
otherwise connect and run the explicit AUTH exchange. -/
def sendViaTcpIslandBody {α : Type} (cfg : IslandCfg) (script : TcpScript) (wait : Bool)
    (jsonLoads : List Char → Except Unit α) : Except PyExc (Option α) × List Action :=
  if cfg.token = "" then (.ok none, [])
  else
    let cAct := Action.connect cfg.host cfg.port
    match script.connect with
    | .timeout => (.error .socketTimeout, [cAct])
    | .refused => (.error .connectionRefused, [cAct])
    | .osErr => (.error .osError, [cAct])
    | .fileNotFound => (.error .fileNotFound, [cAct])
    | .ok =>
      let ar := tcpAuthPhase cfg.token wait jsonLoads script.net
      (ar.1, cAct :: ar.2.2)

/-- send_via_tcp from claude-island-state.py with its except clauses
applied. -/
def sendViaTcpIsland {α : Type} (cfg : IslandCfg) (script : TcpScript) (wait : Bool)
    (jsonLoads : List Char → Except Unit α) : PyRes α × List Action :=
  applyHandlers (sendViaTcpIslandBody cfg script wait jsonLoads)

/-- Body of send_via_socket (identical in both scripts up to the
socket path): connect to the Unix socket, then the shared payload
tail. -/
def sendViaSocketBody {α : Type} (path : String) (script : TcpScript) (wait : Bool)
    (jsonLoads : List Char → Except Unit α) : Except PyExc (Option α) × List Action :=
  let cAct := Action.connectUnix path
  match script.connect with
  | .timeout => (.error .socketTimeout, [cAct])
  | .refused => (.error .connectionRefused, [cAct])
  | .osErr => (.error .osError, [cAct])
  | .fileNotFound => (.error .fileNotFound, [cAct])
  | .ok =>
    let fr := tcpFinish wait jsonLoads script.net
    (fr.1, cAct :: fr.2.2)

/-- send_via_socket with its except clauses applied. -/
def sendViaSocket {α : Type} (path : String) (script : TcpScript) (wait : Bool)
    (jsonLoads : List Char → Except Unit α) : PyRes α × List Action :=
  applyHandlers (sendViaSocketBody path script wait jsonLoads)

/-- Configuration fields read by the Nook send_event. -/
structure NookFullCfg where
  mode : String
  hostCfg : HostState
  token : String
  deriving DecidableEq, Repr

/-- Environment of one send_event call: whether the Unix socket path
exists, and the scripted peers of the two channels. -/
structure SendEnv where
  socketExists : Bool
  sockScript : TcpScript
  tcpScript : TcpScript
  deriving DecidableEq, Repr

/-- The remote leg of the Nook auto mode, entered when the local
socket produced no decision: resolve the host, and attempt TCP only
when a token is configured or the host is a Tailscale address.  The
resultBound argument records whether the local variable result was
ever assigned: the source closes with a bare return result, which
raises UnboundLocalError when the socket branch never ran. -/
def sendEventNookAutoTail {α : Type} (cfg : NookFullCfg) (env : SendEnv) (wait : Bool)
    (jsonLoads : List Char → Except Unit α) (resultBound : Option (Option α))
    (tr : List Action) : PyRes α × List Action :=
  let hp := getHost cfg.hostCfg
  if hp.1 ≠ "" ∧ (cfg.token ≠ "" ∨ is_tailscale_ip hp.1 = true) then
    let r := sendViaTcpNook { hostCfg := hp.2, token := cfg.token } env.tcpScript wait jsonLoads
    (r.1, tr ++ r.2)
  else
    match resultBound with
    | some v => (.ret v, tr)
    | none => (.raise .unboundLocalError, tr)

/-- send_event from claude-nook-state.py: dispatch on the mode; in
auto mode try the Unix socket only when its path exists, then fall
through to the remote leg. -/
def sendEventNook {α : Type} (cfg : NookFullCfg) (env : SendEnv) (wait : Bool)
    (jsonLoads : List Char → Except Unit α) : PyRes α × List Action :=
  if cfg.mode = "socket" then
    sendViaSocket "/tmp/claude-nook.sock" env.sockScript wait jsonLoads
  else if cfg.mode = "tcp" then
    sendViaTcpNook { hostCfg := cfg.hostCfg, token := cfg.token } env.tcpScript wait jsonLoads
  else
    if env.socketExists then
      match sendViaSocket "/tmp/claude-nook.sock" env.sockScript wait jsonLoads with
      | (.raise e, t) => (.raise e, t)
      | (.ret v, t) =>
        if v.isSome ∨ wait = false then (.ret v, t)
        else sendEventNookAutoTail cfg env wait jsonLoads (some v) t
    else sendEventNookAutoTail cfg env wait jsonLoads none []

/-- Configuration fields read by the Island send_event. -/
structure IslandFullCfg where
  mode : String
  host : String
  port : Nat
  token : String
  deriving DecidableEq, Repr

/-- send_event from claude-island-state.py: dispatch on the mode; in
auto mode the Unix socket is always attempted first, and TCP runs as
fallback only when a token is configured and the socket path does not
exist. -/
def sendEventIsland {α : Type} (cfg : IslandFullCfg) (env : SendEnv) (wait : Bool)
    (jsonLoads : List Char → Except Unit α) : PyRes α × List Action :=
  if cfg.mode = "socket" then
    sendViaSocket "/tmp/claude-island.sock" env.sockScript wait jsonLoads
  else if cfg.mode = "tcp" then
    sendViaTcpIsland { host := cfg.host, port := cfg.port, token := cfg.token }
      env.tcpScript wait jsonLoads
  else
    match sendViaSocket "/tmp/claude-island.sock" env.sockScript wait jsonLoads with
    | (.raise e, t) => (.raise e, t)
    | (.ret v, t) =>
      if cfg.token ≠ "" ∧ env.socketExists = false then
        let r := sendViaTcpIsland { host := cfg.host, port := cfg.port, token := cfg.token }
          env.tcpScript wait jsonLoads
        (r.1, t ++ r.2)
      else (.ret v, t)

/-- Caller-facing outcome of the PermissionRequest branch of main. -/
inductive Outcome where
  | allow
  | deny (message : String)
  | defer
  deriving DecidableEq, Repr

/-- Python dict.get with a default, for a string-valued reply record. -/
def pyGet (d : List (String × String)) (k : String) (dflt : String) : String :=
  match d.find? (fun p => p.1 == k) with
  | some p => p.2
  | none => dflt

/-- The PermissionRequest decision handling of main: a falsy response
(absent, or an empty record) defers; decision allow prints an allow
output with no message; decision deny prints a deny output whose
message is the reason or, when the reason is empty, the fixed default
text; any other decision defers to the normal UI. -/
def permissionOutcome (defaultDenyMsg : String)
    (response : Option (List (String × String))) : Outcome :=
  match response with
  | none => .defer
  | some r =>
    if r.isEmpty then .defer
    else
      let decision := pyGet r "decision" "ask"
      let reason := pyGet r "reason" ""
      if decision = "allow" then .allow
      else if decision = "deny" then
        .deny (if reason = "" then defaultDenyMsg else reason)
      else .defer

/-- Whether an action is a sendAuth. -/
def isAuthAct : Action → Bool
  | .sendAuth _ => true
  | _ => false

/-- Whether a trace contains an AUTH send. -/
def hasAuth (t : List Action) : Bool := t.any isAuthAct

/-- Whether a trace contains a payload send. -/
def hasPayload (t : List Action) : Bool :=
  t.any (fun a => match a with | .sendPayload => true | _ => false)

/-- Whether a trace contains a close. -/
def hasClose (t : List Action) : Bool :=
  t.any (fun a => match a with | .close => true | _ => false)

/-- Whether a trace contains a connection attempt (TCP or Unix). -/
def hasConnect (t : List Action) : Bool :=
  t.any (fun a => match a with
    | .connect _ _ => true
    | .connectUnix _ => true
    | _ => false)

/-- Number of AUTH sends in a trace. -/
def countAuth (t : List Action) : Nat := (t.filter isAuthAct).length

/-- Whether the scripted greeting-probe outcome is one the Nook client
treats as not trusted without raising: a timeout, an empty chunk, or a
decodable reply whose stripped text is not OK. -/
def probeNotTrusted : RecvOutcome → Bool
  | .timeout => true
  | .osErr => false
  | .data b =>
    if b = [] then true
    else
      match utf8Decode b with
      | some cs => !(pyStrip cs == "OK".data)
      | none => false

/-- Exit of the reply-accumulation process as the spec describes it. -/
inductive LineSpec where
  | line (b : Bytes)
  | closed
  | noLine
  deriving DecidableEq, Repr

/-- The auth reply as described by the spec: concatenate received
chunks until the accumulated bytes contain a newline; an empty chunk
means the peer closed first; a silent or failing peer yields no
line. -/
def authReplySpec (acc : Bytes) (recvs : List RecvOutcome) : LineSpec :=
  if 10 ∈ acc then .line acc
  else
    match recvs with
    | [] => .noLine
    | .timeout :: _ => .noLine
    | .osErr :: _ => .noLine
    | .data b :: rest => if b = [] then .closed else authReplySpec (acc ++ b) rest

/-- A json.loads model that fails on every input. -/
def jlFail : List Char → Except Unit Unit := fun _ => Except.error ()

/-- A json.loads model that succeeds on every input. -/
def jlOk : List Char → Except Unit Unit := fun _ => Except.ok ()

/-- A peer script with no scripted traffic: every recv times out. -/
def netEmpty : NetState := { recvs := [], sends := [] }

/-- A reachable peer that never sends anything. -/
def scriptIdle : TcpScript := { connect := .ok, net := netEmpty }

/-- A local socket whose path does not exist. -/
def scriptAbsent : TcpScript := { connect := .fileNotFound, net := netEmpty }

/-- Host-resolution state as loaded with no host configured. -/
def hsUnset : HostState :=
  { host := "", port := 4851, discoveredHost := none,
    discoveryAttempted := false, discoveryCalls := 0 }

/-- Host-resolution state with an explicitly configured public
(non-overlay) host. -/
def hsPublic : HostState :=
  { host := "203.0.113.5", port := 4851, discoveredHost := none,
    discoveryAttempted := false, discoveryCalls := 0 }

/-- The payload tail produces one of four action shapes, and the
shapes without a close all carry an exception out of the try block. -/
lemma tcpFinish_cases {α : Type} (wait : Bool) (jl : List Char → Except Unit α)
    (st : NetState) :
    ((tcpFinish wait jl st).2.2 = [Action.sendPayload] ∧
       (tcpFinish wait jl st).1 = .error .osError) ∨
    ((tcpFinish wait jl st).2.2 = [Action.sendPayload, Action.recv 4096] ∧
       ((tcpFinish wait jl st).1 = .error .socketTimeout ∨
        (tcpFinish wait jl st).1 = .error .osError)) ∨
    (tcpFinish wait jl st).2.2 = [Action.sendPayload, Action.recv 4096, Action.close] ∨
    (tcpFinish wait jl st).2.2 = [Action.sendPayload, Action.close] := by
  unfold tcpFinish
  cases hsend : (doSend st).1 with
  | true => simp [hsend]
  | false =>
    simp only [hsend, Bool.false_eq_true, if_false]
    cases wait with
    | false => simp
    | true =>
      simp only [if_true]
      cases hrecv : (doRecv (doSend st).2).1 with
      | timeout => simp [hrecv]
      | osErr => simp [hrecv]
      | data b =>
        simp only [hrecv]
        by_cases hb : b = []
        · simp [hb]
        · simp only [hb, if_false]
          cases hd : utf8Decode b with
          | none => simp
          | some cs =>
            cases hjl : jl cs with
            | error e => simp [hjl]
            | ok v => simp [hjl]

/-- The payload tail never emits an AUTH line. -/
lemma tcpFinish_no_auth {α : Type} (wait : Bool) (jl : List Char → Except Unit α)
    (st : NetState) : hasAuth (tcpFinish wait jl st).2.2 = false := by
  rcases tcpFinish_cases wait jl st with ⟨h, _⟩ | ⟨h, _⟩ | h | h <;>
    simp [h, hasAuth, isAuthAct]

/-- The payload tail always records the payload send. -/
lemma tcpFinish_has_payload {α : Type} (wait : Bool) (jl : List Char → Except Unit α)
    (st : NetState) : hasPayload (tcpFinish wait jl st).2.2 = true := by
  rcases tcpFinish_cases wait jl st with ⟨h, _⟩ | ⟨h, _⟩ | h | h <;>
    simp [h, hasPayload]

/-- When the payload tail returns normally it has closed the socket. -/
lemma tcpFinish_ok_hasClose {α : Type} (wait : Bool) (jl : List Char → Except Unit α)
    (st : NetState) (v : Option α) (h : (tcpFinish wait jl st).1 = .ok v) :
    hasClose (tcpFinish wait jl st).2.2 = true := by
  rcases tcpFinish_cases wait jl st with ⟨ha, hr⟩ | ⟨ha, hr | hr⟩ | ha | ha
  · rw [hr] at h; exact absurd h (by simp)
  · rw [hr] at h; exact absurd h (by simp)
  · rw [hr] at h; exact absurd h (by simp)
  · simp [ha, hasClose]
  · simp [ha, hasClose]

/-- Every action of the auth-response loop is a 64-byte recv. -/
lemma tcpAuthLoop_acts (recvs : List RecvOutcome) (acc : Bytes) (a : Action)
    (h : a ∈ (tcpAuthLoop acc recvs).2.2) : a = Action.recv 64 := by
  induction recvs generalizing acc with
  | nil =>
    unfold tcpAuthLoop at h
    by_cases hm : 10 ∈ acc <;> simpa [hm] using h
  | cons o rest ih =>
    unfold tcpAuthLoop at h
    by_cases hm : 10 ∈ acc
    · simpa [hm] using h
    · cases o with
      | timeout => simpa [hm] using h
      | osErr => simpa [hm] using h
      | data b =>
        by_cases hb : b = []
        · simpa [hm, hb] using h
        · simp only [hm, hb, if_false] at h
          simp only [List.mem_cons] at h
          rcases h with h | h
          · exact h
          · exact ih _ h

/-- The auth-response loop agrees with the reply accumulation the
spec describes: a full line, a peer close, or no line at all (which at
the implementation level is a timeout or an OS error, both caught by
the function-level handlers). -/
lemma tcpAuthLoop_of_spec (recvs : List RecvOutcome) (acc : Bytes) :
    (∀ b, authReplySpec acc recvs = .line b → (tcpAuthLoop acc recvs).1 = .line b) ∧
    (authReplySpec acc recvs = .closed → (tcpAuthLoop acc recvs).1 = .closedDuringAuth) ∧
    (authReplySpec acc recvs = .noLine →
      (tcpAuthLoop acc recvs).1 = .exc .socketTimeout ∨
      (tcpAuthLoop acc recvs).1 = .exc .osError) := by
  induction recvs generalizing acc with
  | nil =>
    unfold tcpAuthLoop authReplySpec
    by_cases hm : 10 ∈ acc <;> simp [hm]
  | cons o rest ih =>
    unfold tcpAuthLoop authReplySpec
    by_cases hm : 10 ∈ acc
    · simp [hm]
    · cases o with
      | timeout => simp [hm]
      | osErr => simp [hm]
      | data b =>
        by_cases hb : b = []
        · simp [hm, hb]
        · simp only [hm, hb, if_false]
          exact ih (acc ++ b)

/-- The except clauses leave the action trace unchanged. -/
lemma applyHandlers_trace {α : Type} (p : Except PyExc (Option α) × List Action) :
    (applyHandlers p).2 = p.2 := by
  rcases p with ⟨r, t⟩
  cases r with
  | ok v => rfl
  | error e => cases he : handlerCatches e <;> simp [applyHandlers, he]

/-- A normal return passes through the except clauses unchanged. -/
lemma applyHandlers_ret {α : Type} (p : Except PyExc (Option α) × List Action)
    (v : Option α) (h : p.1 = .ok v) : (applyHandlers p).1 = .ret v := by
  rcases p with ⟨r, t⟩
  cases r with
  | ok w => cases h; rfl
  | error e => cases h

/-- A caught exception becomes a None return. -/
lemma applyHandlers_caught {α : Type} (p : Except PyExc (Option α) × List Action)
    (e : PyExc) (h : p.1 = .error e) (hc : handlerCatches e = true) :
    (applyHandlers p).1 = .ret none := by
  rcases p with ⟨r, t⟩
  cases r with
  | ok w => cases h
  | error f => cases h; simp [applyHandlers, hc]

/-- A probe outcome the client treats as not trusted makes the
greeting check come back false without raising. -/
lemma greetingTrusted_eq_of_probe (o : RecvOutcome) (h : probeNotTrusted o = true) :
    greetingTrusted o = .ok false := by
  cases o with
  | timeout => rfl
  | osErr => simp [probeNotTrusted] at h
  | data b =>
    simp only [probeNotTrusted] at h
    simp only [greetingTrusted]
    by_cases hb : b = []
    · simp [hb]
    · simp only [hb, if_false] at h ⊢
      cases hd : utf8Decode b with
      | none => rw [hd] at h; simp at h
      | some cs =>
        rw [hd] at h
        simp only [Bool.not_eq_true'] at h
        simp [h]

/-- A list with no matching element filters to nil. -/
lemma filter_eq_nil_of_any_false {β : Type} {l : List β} {p : β → Bool}
    (h : l.any p = false) : l.filter p = [] :=
  List.filter_eq_nil_iff.mpr (List.any_eq_false.mp h)

/-- The auth-response loop emits no AUTH action. -/
lemma tcpAuthLoop_filter_auth (recvs : List RecvOutcome) (acc : Bytes) :
    ((tcpAuthLoop acc recvs).2.2).filter isAuthAct = [] :=
  List.filter_eq_nil_iff.mpr fun a ha => by
    rw [tcpAuthLoop_acts recvs acc a ha]; simp [isAuthAct]

/-- The auth-response loop emits no payload action. -/
lemma tcpAuthLoop_no_payload (recvs : List RecvOutcome) (acc : Bytes) :
    hasPayload (tcpAuthLoop acc recvs).2.2 = false :=
  List.any_eq_false.mpr fun a ha => by
    rw [tcpAuthLoop_acts recvs acc a ha]; simp

/-- The auth phase emits exactly one AUTH action, carrying the line
AUTH token newline. -/
lemma tcpAuthPhase_one_auth {α : Type} (token : String) (wait : Bool)
    (jl : List Char → Except Unit α) (st : NetState) (hs : st.sends = []) :
    ((tcpAuthPhase token wait jl st).2.2).filter isAuthAct
      = [Action.sendAuth ("AUTH " ++ token ++ "\n")] := by
  have hds : doSend st = (false, st) := by unfold doSend; rw [hs]
  cases hl : (tcpAuthLoop [] st.recvs).1 with
  | closedDuringAuth =>
    simp [tcpAuthPhase, hds, hl, List.filter_append, isAuthAct, tcpAuthLoop_filter_auth]
  | exc e =>
    simp [tcpAuthPhase, hds, hl, isAuthAct, tcpAuthLoop_filter_auth]
  | line b =>
    cases hd : utf8Decode b with
    | none =>
      simp [tcpAuthPhase, hds, hl, hd, isAuthAct, tcpAuthLoop_filter_auth]
    | some cs =>
      by_cases hok : pyStrip cs = "OK".data <;>
        simp [tcpAuthPhase, hds, hl, hd, hok, List.filter_append, isAuthAct,
          tcpAuthLoop_filter_auth, filter_eq_nil_of_any_false (tcpFinish_no_auth wait jl _)]

/-- When the peer closes during auth the phase returns None with no
payload sent and the socket closed. -/
lemma tcpAuthPhase_closed {α : Type} (token : String) (wait : Bool)
    (jl : List Char → Except Unit α) (st : NetState) (hs : st.sends = [])
    (hc : authReplySpec [] st.recvs = .closed) :
    (tcpAuthPhase token wait jl st).1 = .ok none ∧
    hasPayload (tcpAuthPhase token wait jl st).2.2 = false ∧
    hasClose (tcpAuthPhase token wait jl st).2.2 = true := by
  have hds : doSend st = (false, st) := by unfold doSend; rw [hs]
  have hl := (tcpAuthLoop_of_spec st.recvs []).2.1 hc
  simp [tcpAuthPhase, hds, hl, hasPayload, hasClose, List.any_append, isAuthAct]
  have hnp := tcpAuthLoop_no_payload st.recvs []
  simp [hasPayload] at hnp
  exact hnp

/-- When the accumulated reply is a full line, the phase sends the
payload exactly when the trimmed decoded line is OK, and otherwise
returns None with the socket closed. -/
lemma tcpAuthPhase_line {α : Type} (token : String) (wait : Bool)
    (jl : List Char → Except Unit α) (st : NetState) (hs : st.sends = [])
    (b : Bytes) (cs : List Char)
    (hline : authReplySpec [] st.recvs = .line b)
    (hdec : utf8Decode b = some cs) :
    (pyStrip cs = "OK".data →
       hasPayload (tcpAuthPhase token wait jl st).2.2 = true) ∧
    (pyStrip cs ≠ "OK".data →
       (tcpAuthPhase token wait jl st).1 = .ok none ∧
       hasPayload (tcpAuthPhase token wait jl st).2.2 = false ∧
       hasClose (tcpAuthPhase token wait jl st).2.2 = true) := by
  have hds : doSend st = (false, st) := by unfold doSend; rw [hs]
  have hl := (tcpAuthLoop_of_spec st.recvs []).1 b hline
  have hnp := tcpAuthLoop_no_payload st.recvs []
  simp only [hasPayload] at hnp
  constructor
  · intro hok
    simp [tcpAuthPhase, hds, hl, hdec, hok, hasPayload, List.any_append]
    have := tcpFinish_has_payload wait jl ({ (false, st).2 with recvs := (tcpAuthLoop [] st.recvs).2.1 })
    simp [hasPayload] at this
    simp [this]
  · intro hok
    simp [tcpAuthPhase, hds, hl, hdec, hok, hasPayload, hasClose, List.any_append, hnp]

/-- When the peer yields no reply line the phase sends no payload and
exits the try block with an exception the handlers catch. -/
lemma tcpAuthPhase_noLine {α : Type} (token : String) (wait : Bool)
    (jl : List Char → Except Unit α) (st : NetState) (hs : st.sends = [])
    (hn : authReplySpec [] st.recvs = .noLine) :
    hasPayload (tcpAuthPhase token wait jl st).2.2 = false ∧
    ∃ e, (tcpAuthPhase token wait jl st).1 = .error e ∧ handlerCatches e = true := by
  have hds : doSend st = (false, st) := by unfold doSend; rw [hs]
  have hnp := tcpAuthLoop_no_payload st.recvs []
  simp only [hasPayload] at hnp
  rcases (tcpAuthLoop_of_spec st.recvs []).2.2 hn with hl | hl <;>
    simp [tcpAuthPhase, hds, hl, hasPayload, hnp, handlerCatches]

/-- When the auth phase returns normally it has closed the socket. -/
lemma tcpAuthPhase_ok_hasClose {α : Type} (token : String) (wait : Bool)
    (jl : List Char → Except Unit α) (st : NetState) (v : Option α)
    (h : (tcpAuthPhase token wait jl st).1 = .ok v) :
    hasClose (tcpAuthPhase token wait jl st).2.2 = true := by
  cases hsend : (doSend st).1 with
  | true => simp [tcpAuthPhase, hsend] at h
  | false =>
    cases hl : (tcpAuthLoop [] (doSend st).2.recvs).1 with
    | closedDuringAuth =>
      simp [tcpAuthPhase, hsend, hl, hasClose, List.any_append]
    | exc e => simp [tcpAuthPhase, hsend, hl] at h
    | line b =>
      cases hd : utf8Decode b with
      | none => simp [tcpAuthPhase, hsend, hl, hd] at h
      | some cs =>
        by_cases hok : pyStrip cs = "OK".data
        · simp only [tcpAuthPhase, hsend, hl, hd, hok] at h ⊢
          simp only [Bool.false_eq_true, if_false, if_true] at h ⊢
          have hcl := tcpFinish_ok_hasClose wait jl _ v h
          simp only [hasClose] at hcl ⊢
          simp [List.any_append, hcl]
        · simp [tcpAuthPhase, hsend, hl, hd, hok, hasClose, List.any_append]

/-- The auth phase trace starts with the AUTH send. -/
lemma tcpAuthPhase_acts_head {α : Type} (token : String) (wait : Bool)
    (jl : List Char → Except Unit α) (st : NetState) :
    ∃ t, (tcpAuthPhase token wait jl st).2.2
      = Action.sendAuth ("AUTH " ++ token ++ "\n") :: t := by
  cases hsend : (doSend st).1 with
  | true => simp [tcpAuthPhase, hsend]
  | false =>
    cases hl : (tcpAuthLoop [] (doSend st).2.recvs).1 with
    | closedDuringAuth => simp [tcpAuthPhase, hsend, hl]
    | exc e => simp [tcpAuthPhase, hsend, hl]
    | line b =>
      cases hd : utf8Decode b with
      | none => simp [tcpAuthPhase, hsend, hl, hd]
      | some cs =>
        by_cases hok : pyStrip cs = "OK".data
        · simp [tcpAuthPhase, hsend, hl, hd, hok]
        · simp [tcpAuthPhase, hsend, hl, hd, hok]

/-- C8: the address classifier accepts 100.64.0.1, 100.100.100.100 and
100.127.255.255 as overlay-trusted and rejects 100.63.255.255,
100.128.0.0, 10.0.0.1 and the malformed strings 100.64.0 and
abc.def.1.2. -/
theorem c8_address_classification :
    is_tailscale_ip "100.64.0.1" = true ∧
    is_tailscale_ip "100.100.100.100" = true ∧
    is_tailscale_ip "100.127.255.255" = true ∧
    is_tailscale_ip "100.63.255.255" = false ∧
    is_tailscale_ip "100.128.0.0" = false ∧
    is_tailscale_ip "10.0.0.1" = false ∧
    is_tailscale_ip "100.64.0" = false ∧
    is_tailscale_ip "abc.def.1.2" = false := by decide

/-- C10: any string with exactly four dot-separated fields whose first
field parses as the integer 100 and whose second parses into 64..127
is classified overlay-trusted, whatever the remaining two fields
contain. -/
theorem c10_field_based_classification (s : String) (p0 p1 p2 p3 : List Char) (k : Int)
    (hsplit : splitDotsAux [] s.data = [p0, p1, p2, p3])
    (h0 : pyIntChars p0 = some 100)
    (h1 : pyIntChars p1 = some k)
    (hlo : 64 ≤ k) (hhi : k ≤ 127) :
    is_tailscale_ip s = true := by
  unfold is_tailscale_ip
  simp [hsplit, h0, h1, hlo, hhi]

/-- C10 witness: 100.64.999.999 is classified overlay-trusted even
though it is not a valid IPv4 address. -/
theorem c10_field_based_classification_witness :
    is_tailscale_ip "100.64.999.999" = true :=
  c10_field_based_classification "100.64.999.999"
    ['1', '0', '0'] ['6', '4'] ['9', '9', '9'] ['9', '9', '9'] 64
    (by decide) (by decide) (by decide) (by decide) (by decide)

/-- C5: a decision record with decision allow yields the allow outcome
with no reason text, decision deny with reason no yields a deny
outcome with message no, and an absent reply, an empty record, and an
explicit ask decision all yield the same defer outcome, in both
variants. -/
theorem c5_decision_roundtrip :
    permissionOutcome "Denied by user via Claude Nook" (some [("decision", "allow")]) = .allow ∧
    permissionOutcome "Denied by user via Claude Nook"
      (some [("decision", "deny"), ("reason", "no")]) = .deny "no" ∧
    permissionOutcome "Denied by user via Claude Nook" (some [("decision", "ask")]) = .defer ∧
    permissionOutcome "Denied by user via Claude Nook" none
      = permissionOutcome "Denied by user via Claude Nook" (some [("decision", "ask")]) ∧
    permissionOutcome "Denied by user via Claude Nook" (some [])
      = permissionOutcome "Denied by user via Claude Nook" (some [("decision", "ask")]) ∧
    permissionOutcome "Denied by user via ClaudeIsland" (some [("decision", "allow")]) = .allow ∧
    permissionOutcome "Denied by user via ClaudeIsland"
      (some [("decision", "deny"), ("reason", "no")]) = .deny "no" ∧
    permissionOutcome "Denied by user via ClaudeIsland" none = .defer ∧
    permissionOutcome "Denied by user via ClaudeIsland" (some []) = .defer := by decide

/-- C9: calling the host resolver a second time returns the same host,
leaves the cached state untouched (in particular the discovery counter
does not advance), and the first call performs at most one discovery
attempt. -/
theorem c9_resolver_idempotent (st : HostState) :
    (getHost (getHost st).2).1 = (getHost st).1 ∧
    (getHost (getHost st).2).2 = (getHost st).2 ∧
    (getHost st).2.discoveryCalls ≤ st.discoveryCalls + 1 := by
  unfold getHost discoverViaBonjour
  by_cases h1 : st.host = "" <;> by_cases h2 : st.discoveryAttempted <;>
    simp [h1, h2]

/-- C9 witness: from the initial unconfigured state both calls return
the loopback address and the discovery counter stays at one. -/
theorem c9_resolver_idempotent_witness :
    (getHost (getHost hsUnset).2).1 = (getHost hsUnset).1 ∧
    (getHost (getHost hsUnset).2).2 = (getHost hsUnset).2 ∧
    (getHost hsUnset).2.discoveryCalls ≤ hsUnset.discoveryCalls + 1 :=
  c9_resolver_idempotent hsUnset

/-- C1: with mode auto, the local socket path absent, no token and no
configured host (so the resolved host is the loopback address), the
Nook send_event reaches a bare return of the never-assigned local
variable result and raises UnboundLocalError instead of returning
None; the Island variant returns None on the analogous input. -/
theorem c1_auto_loopback_unbound_local :
    sendEventNook { mode := "auto", hostCfg := hsUnset, token := "" }
        { socketExists := false, sockScript := scriptAbsent, tcpScript := scriptIdle }
        true jlFail
      = (.raise .unboundLocalError, []) ∧
    sendEventIsland { mode := "auto", host := "127.0.0.1", port := 4851, token := "" }
        { socketExists := false, sockScript := scriptAbsent, tcpScript := scriptIdle }
        true jlFail
      = (.ret none, [.connectUnix "/tmp/claude-island.sock"]) := by decide

/-- C7: a reply of the single byte 0xFF (invalid UTF-8) makes both
send_via_tcp (after an auto-trust greeting) and send_via_socket raise
UnicodeDecodeError to the caller, because only json.JSONDecodeError is
among the caught exception types; a decodable reply that is not valid
JSON is, by contrast, swallowed into a None return. -/
theorem c7_invalid_utf8_reply_raises :
    (sendViaTcpNook { hostCfg := hsPublic, token := "" }
        { connect := .ok, net := { recvs := [.data [79, 75, 10], .data [255]], sends := [] } }
        true jlFail).1
      = .raise .unicodeDecodeError ∧
    (sendViaSocket "/tmp/claude-nook.sock"
        { connect := .ok, net := { recvs := [.data [255]], sends := [] } }
        true jlFail).1
      = .raise .unicodeDecodeError ∧
    (sendViaTcpNook { hostCfg := hsPublic, token := "" }
        { connect := .ok, net := { recvs := [.data [79, 75, 10], .data [110, 111]], sends := [] } }
        true jlFail).1
      = .ret none ∧
    (sendViaSocket "/tmp/claude-nook.sock"
        { connect := .ok, net := { recvs := [.data [110, 111]], sends := [] } }
        true jlFail).1
      = .ret none := by decide

/-- C2 counterexample: in remote-only mode with no secret and the
non-overlay host 203.0.113.5, the Nook client does open a network
connection (the trace contains a connect) before its credential check
short-circuits, contradicting the claim that no connect occurs. -/
theorem c2_counterexample :
    is_tailscale_ip "203.0.113.5" = false ∧
    (sendEventNook { mode := "tcp", hostCfg := hsPublic, token := "" }
        { socketExists := false, sockScript := scriptAbsent,
          tcpScript := { connect := .ok, net := { recvs := [.timeout], sends := [] } } }
        false jlFail).1 = .ret none ∧
    hasConnect (sendEventNook { mode := "tcp", hostCfg := hsPublic, token := "" }
        { socketExists := false, sockScript := scriptAbsent,
          tcpScript := { connect := .ok, net := { recvs := [.timeout], sends := [] } } }
        false jlFail).2 = true := by decide

/-- C2 amended: in remote-only mode with no shared secret the Island
variant returns None before any socket action, while the Nook variant
first connects and probes for a greeting; when the probe does not
yield an OK greeting it closes the socket and returns None, having
sent neither an AUTH line nor the payload. -/
theorem c2_remote_only_no_secret (α : Type) (icfg : IslandCfg) (iscript : TcpScript)
    (iwait : Bool) (ijl : List Char → Except Unit α)
    (ncfg : NookCfg) (nscript : TcpScript) (nwait : Bool)
    (njl : List Char → Except Unit α)
    (hti : icfg.token = "") (htn : ncfg.token = "")
    (hc : nscript.connect = .ok)
    (hp : probeNotTrusted (doRecv nscript.net).1 = true) :
    sendViaTcpIsland icfg iscript iwait ijl = (.ret none, []) ∧
    (sendViaTcpNook ncfg nscript nwait njl).1 = .ret none ∧
    (sendViaTcpNook ncfg nscript nwait njl).2
      = [Action.connect (getHost ncfg.hostCfg).1 (getHost ncfg.hostCfg).2.port,
         Action.recv 64, Action.close] := by
  have hgt := greetingTrusted_eq_of_probe _ hp
  refine ⟨?_, ?_, ?_⟩
  · simp [sendViaTcpIsland, sendViaTcpIslandBody, hti, applyHandlers]
  · simp [sendViaTcpNook, sendViaTcpNookBody, hc, hgt, htn, applyHandlers]
  · simp [sendViaTcpNook, sendViaTcpNookBody, hc, hgt, htn, applyHandlers]

/-- C2 amended witness: concrete runs of both variants with no secret
and the non-overlay host 203.0.113.5. -/
theorem c2_remote_only_no_secret_witness :
    sendViaTcpIsland { host := "203.0.113.5", port := 4851, token := "" }
        scriptIdle false jlFail = (.ret none, []) ∧
    (sendViaTcpNook { hostCfg := hsPublic, token := "" }
        { connect := .ok, net := { recvs := [.timeout], sends := [] } } false jlFail).1
      = .ret none ∧
    (sendViaTcpNook { hostCfg := hsPublic, token := "" }
        { connect := .ok, net := { recvs := [.timeout], sends := [] } } false jlFail).2
      = [Action.connect (getHost hsPublic).1 (getHost hsPublic).2.port,
         Action.recv 64, Action.close] :=
  c2_remote_only_no_secret Unit
    { host := "203.0.113.5", port := 4851, token := "" } scriptIdle false jlFail
    { hostCfg := hsPublic, token := "" }
    { connect := .ok, net := { recvs := [.timeout], sends := [] } } false jlFail
    rfl rfl rfl (by decide)

/-- C3 counterexample: an Island run whose peer sends the OK greeting
immediately after connect still emits an AUTH line before sending the
payload, contradicting the claim that the payload is sent without
ever emitting AUTH. -/
theorem c3_counterexample :
    hasPayload (sendViaTcpIsland { host := "100.64.0.7", port := 4851, token := "t" }
        { connect := .ok, net := { recvs := [.data [79, 75, 10]], sends := [] } }
        false jlFail).2 = true ∧
    hasAuth (sendViaTcpIsland { host := "100.64.0.7", port := 4851, token := "t" }
        { connect := .ok, net := { recvs := [.data [79, 75, 10]], sends := [] } }
        false jlFail).2 = true := by decide

/-- C3 amended: in the Nook variant an OK greeting within the probe
window leads straight to the payload with no AUTH line ever emitted;
the Island variant has no greeting probe and, whenever a secret is
configured, emits an AUTH line immediately after connect, before any
payload. -/
theorem c3_greeting_skips_auth (α : Type) (ncfg : NookCfg) (nscript : TcpScript)
    (nwait : Bool) (njl : List Char → Except Unit α) (b : Bytes) (cs : List Char)
    (icfg : IslandCfg) (iscript : TcpScript) (iwait : Bool)
    (ijl : List Char → Except Unit α)
    (hc : nscript.connect = .ok)
    (hg : (doRecv nscript.net).1 = .data b)
    (hb : b ≠ [])
    (hdec : utf8Decode b = some cs)
    (hok : pyStrip cs = "OK".data)
    (hti : icfg.token ≠ "")
    (hic : iscript.connect = .ok) :
    hasAuth (sendViaTcpNook ncfg nscript nwait njl).2 = false ∧
    hasPayload (sendViaTcpNook ncfg nscript nwait njl).2 = true ∧
    ∃ t, (sendViaTcpIsland icfg iscript iwait ijl).2
      = Action.connect icfg.host icfg.port
          :: Action.sendAuth ("AUTH " ++ icfg.token ++ "\n") :: t := by
  have hgt : greetingTrusted (doRecv nscript.net).1 = .ok true := by
    rw [hg]; simp [greetingTrusted, hb, hdec, hok]
  have hna := tcpFinish_no_auth nwait njl (doRecv nscript.net).2
  have hhp := tcpFinish_has_payload nwait njl (doRecv nscript.net).2
  simp only [hasAuth, hasPayload] at hna hhp
  refine ⟨?_, ?_, ?_⟩
  · rw [sendViaTcpNook, applyHandlers_trace]
    simp [sendViaTcpNookBody, hc, hgt, hasAuth, isAuthAct, hna]
  · rw [sendViaTcpNook, applyHandlers_trace]
    simp [sendViaTcpNookBody, hc, hgt, hasPayload, hhp]
  · rw [sendViaTcpIsland, applyHandlers_trace]
    obtain ⟨t, ht⟩ := tcpAuthPhase_acts_head icfg.token iwait ijl iscript.net
    exact ⟨t, by simp [sendViaTcpIslandBody, hti, hic, ht]⟩

/-- C3 amended witness: a Nook run greeted with OK sends the payload
with no AUTH line; an Island run with a secret opens with connect and
an AUTH line. -/
theorem c3_greeting_skips_auth_witness :
    hasAuth (sendViaTcpNook { hostCfg := hsPublic, token := "tok" }
        { connect := .ok, net := { recvs := [.data [79, 75, 10]], sends := [] } }
        false jlFail).2 = false ∧
    hasPayload (sendViaTcpNook { hostCfg := hsPublic, token := "tok" }
        { connect := .ok, net := { recvs := [.data [79, 75, 10]], sends := [] } }
        false jlFail).2 = true ∧
    ∃ t, (sendViaTcpIsland { host := "100.64.0.7", port := 4851, token := "t" }
        { connect := .ok, net := { recvs := [.data [79, 75, 10]], sends := [] } }
        false jlFail).2
      = Action.connect "100.64.0.7" 4851 :: Action.sendAuth "AUTH t\n" :: t :=
  c3_greeting_skips_auth Unit { hostCfg := hsPublic, token := "tok" }
    { connect := .ok, net := { recvs := [.data [79, 75, 10]], sends := [] } }
    false jlFail [79, 75, 10] ['O', 'K', '\n']
    { host := "100.64.0.7", port := 4851, token := "t" }
    { connect := .ok, net := { recvs := [.data [79, 75, 10]], sends := [] } }
    false jlFail
    rfl (by decide) (by decide) (by decide) (by decide) (by decide) rfl

/-- C4: with a configured secret and no greeting within the probe
window (Nook) or unconditionally (Island, which has no probe), the
client sends exactly one AUTH line of the form AUTH secret newline,
accumulates the reply in chunks until a newline arrives, aborts with
None when the peer closes first, sends the payload exactly when the
trimmed reply is OK, and aborts with None on any other reply. -/
theorem c4_auth_exchange :
    (∀ (α : Type) (cfg : NookCfg) (script : TcpScript) (wait : Bool)
       (jl : List Char → Except Unit α) (rest : List RecvOutcome),
       script.connect = .ok →
       script.net.recvs = .timeout :: rest →
       script.net.sends = [] →
       cfg.token ≠ "" →
       ((sendViaTcpNook cfg script wait jl).2.filter isAuthAct
           = [Action.sendAuth ("AUTH " ++ cfg.token ++ "\n")]) ∧
       (authReplySpec [] rest = .closed →
          (sendViaTcpNook cfg script wait jl).1 = .ret none ∧
          hasPayload (sendViaTcpNook cfg script wait jl).2 = false) ∧
       (∀ b cs, authReplySpec [] rest = .line b → utf8Decode b = some cs →
          (pyStrip cs = "OK".data →
             hasPayload (sendViaTcpNook cfg script wait jl).2 = true) ∧
          (pyStrip cs ≠ "OK".data →
             (sendViaTcpNook cfg script wait jl).1 = .ret none ∧
             hasPayload (sendViaTcpNook cfg script wait jl).2 = false)) ∧
       (authReplySpec [] rest = .noLine →
          (sendViaTcpNook cfg script wait jl).1 = .ret none ∧
          hasPayload (sendViaTcpNook cfg script wait jl).2 = false)) ∧
    (∀ (α : Type) (cfg : IslandCfg) (script : TcpScript) (wait : Bool)
       (jl : List Char → Except Unit α),
       script.connect = .ok →
       script.net.sends = [] →
       cfg.token ≠ "" →
       ((sendViaTcpIsland cfg script wait jl).2.filter isAuthAct
           = [Action.sendAuth ("AUTH " ++ cfg.token ++ "\n")]) ∧
       (authReplySpec [] script.net.recvs = .closed →
          (sendViaTcpIsland cfg script wait jl).1 = .ret none ∧
          hasPayload (sendViaTcpIsland cfg script wait jl).2 = false) ∧
       (∀ b cs, authReplySpec [] script.net.recvs = .line b → utf8Decode b = some cs →
          (pyStrip cs = "OK".data →
             hasPayload (sendViaTcpIsland cfg script wait jl).2 = true) ∧
          (pyStrip cs ≠ "OK".data →
             (sendViaTcpIsland cfg script wait jl).1 = .ret none ∧
             hasPayload (sendViaTcpIsland cfg script wait jl).2 = false)) ∧
       (authReplySpec [] script.net.recvs = .noLine →
          (sendViaTcpIsland cfg script wait jl).1 = .ret none ∧
          hasPayload (sendViaTcpIsland cfg script wait jl).2 = false)) := by
  constructor
  · intro α cfg script wait jl rest hc hr hs ht
    have hdr : doRecv script.net = (RecvOutcome.timeout, ({ recvs := rest, sends := [] } : NetState)) := by
      unfold doRecv; rw [hr]; simp [hs]
    have hb1 : (sendViaTcpNookBody cfg script wait jl).1
        = (tcpAuthPhase cfg.token wait jl { recvs := rest, sends := [] }).1 := by
      simp [sendViaTcpNookBody, hc, hdr, greetingTrusted, ht]
    have hb2 : (sendViaTcpNookBody cfg script wait jl).2
        = Action.connect (getHost cfg.hostCfg).1 (getHost cfg.hostCfg).2.port
            :: Action.recv 64
            :: (tcpAuthPhase cfg.token wait jl { recvs := rest, sends := [] }).2.2 := by
      simp [sendViaTcpNookBody, hc, hdr, greetingTrusted, ht]
    have htr : (sendViaTcpNook cfg script wait jl).2
        = Action.connect (getHost cfg.hostCfg).1 (getHost cfg.hostCfg).2.port
            :: Action.recv 64
            :: (tcpAuthPhase cfg.token wait jl { recvs := rest, sends := [] }).2.2 := by
      rw [sendViaTcpNook, applyHandlers_trace, hb2]
    refine ⟨?_, ?_, ?_, ?_⟩
    · rw [htr]
      simp [List.filter_cons, isAuthAct,
        tcpAuthPhase_one_auth cfg.token wait jl { recvs := rest, sends := [] } rfl]
    · intro hcl
      obtain ⟨h1, h2, h3⟩ :=
        tcpAuthPhase_closed cfg.token wait jl { recvs := rest, sends := [] } rfl hcl
      constructor
      · exact applyHandlers_ret _ none (hb1.trans h1)
      · rw [htr]; simp only [hasPayload] at h2 ⊢; simp [h2]
    · intro b cs hline hdec
      obtain ⟨h1, h2⟩ :=
        tcpAuthPhase_line cfg.token wait jl { recvs := rest, sends := [] } rfl b cs hline hdec
      constructor
      · intro hok
        rw [htr]; simp only [hasPayload] at h1 ⊢; simp [h1 hok]
      · intro hok
        obtain ⟨g1, g2, g3⟩ := h2 hok
        constructor
        · exact applyHandlers_ret _ none (hb1.trans g1)
        · rw [htr]; simp only [hasPayload] at g2 ⊢; simp [g2]
    · intro hn
      obtain ⟨h1, e, he, hce⟩ :=
        tcpAuthPhase_noLine cfg.token wait jl { recvs := rest, sends := [] } rfl hn
      constructor
      · exact applyHandlers_caught _ e (hb1.trans he) hce
      · rw [htr]; simp only [hasPayload] at h1 ⊢; simp [h1]
  · intro α cfg script wait jl hc hs ht
    have hb1 : (sendViaTcpIslandBody cfg script wait jl).1
        = (tcpAuthPhase cfg.token wait jl script.net).1 := by
      simp [sendViaTcpIslandBody, hc, ht]
    have htr : (sendViaTcpIsland cfg script wait jl).2
        = Action.connect cfg.host cfg.port
            :: (tcpAuthPhase cfg.token wait jl script.net).2.2 := by
      rw [sendViaTcpIsland, applyHandlers_trace]
      simp [sendViaTcpIslandBody, hc, ht]
    refine ⟨?_, ?_, ?_, ?_⟩
    · rw [htr]
      simp [List.filter_cons, isAuthAct, tcpAuthPhase_one_auth cfg.token wait jl script.net hs]
    · intro hcl
      obtain ⟨h1, h2, h3⟩ := tcpAuthPhase_closed cfg.token wait jl script.net hs hcl
      constructor
      · exact applyHandlers_ret _ none (hb1.trans h1)
      · rw [htr]; simp only [hasPayload] at h2 ⊢; simp [h2]
    · intro b cs hline hdec
      obtain ⟨h1, h2⟩ := tcpAuthPhase_line cfg.token wait jl script.net hs b cs hline hdec
      constructor
      · intro hok
        rw [htr]; simp only [hasPayload] at h1 ⊢; simp [h1 hok]
      · intro hok
        obtain ⟨g1, g2, g3⟩ := h2 hok
        constructor
        · exact applyHandlers_ret _ none (hb1.trans g1)
        · rw [htr]; simp only [hasPayload] at g2 ⊢; simp [g2]
    · intro hn
      obtain ⟨h1, e, he, hce⟩ := tcpAuthPhase_noLine cfg.token wait jl script.net hs hn
      constructor
      · exact applyHandlers_caught _ e (hb1.trans he) hce
      · rw [htr]; simp only [hasPayload] at h1 ⊢; simp [h1]


/-- C4 witness: a Nook run with secret sek, a silent greeting window
and the auth reply BAD newline sends exactly the line AUTH sek, gets
no payload sent, and returns None. -/
theorem c4_auth_exchange_witness :
    ((sendViaTcpNook { hostCfg := hsPublic, token := "sek" }
        { connect := .ok, net := { recvs := [.timeout, .data [66, 65, 68, 10]], sends := [] } }
        false jlFail).2.filter isAuthAct
      = [Action.sendAuth ("AUTH " ++ "sek" ++ "\n")]) ∧
    (sendViaTcpNook { hostCfg := hsPublic, token := "sek" }
        { connect := .ok, net := { recvs := [.timeout, .data [66, 65, 68, 10]], sends := [] } }
        false jlFail).1 = .ret none ∧
    hasPayload (sendViaTcpNook { hostCfg := hsPublic, token := "sek" }
        { connect := .ok, net := { recvs := [.timeout, .data [66, 65, 68, 10]], sends := [] } }
        false jlFail).2 = false := by
  have h := c4_auth_exchange.1 Unit { hostCfg := hsPublic, token := "sek" }
    { connect := .ok, net := { recvs := [.timeout, .data [66, 65, 68, 10]], sends := [] } }
    false jlFail [.data [66, 65, 68, 10]] rfl rfl rfl (by decide)
  have hline := (h.2.2.1 [66, 65, 68, 10] ['B', 'A', 'D', '\n']
    (by decide) (by decide)).2 (by decide)
  exact ⟨h.1, hline.1, hline.2⟩


/-- C6 counterexample: a Nook TCP attempt that is greeted with OK,
sends the payload and then times out waiting for the reply returns
None through the timeout handler with the connection opened but never
closed, contradicting the claim that every exit path closes the
socket. -/
theorem c6_counterexample :
    (sendViaTcpNook { hostCfg := hsPublic, token := "" }
        { connect := .ok, net := { recvs := [.data [79, 75, 10], .timeout], sends := [] } }
        true jlFail).1 = .ret none ∧
    hasConnect (sendViaTcpNook { hostCfg := hsPublic, token := "" }
        { connect := .ok, net := { recvs := [.data [79, 75, 10], .timeout], sends := [] } }
        true jlFail).2 = true ∧
    hasClose (sendViaTcpNook { hostCfg := hsPublic, token := "" }
        { connect := .ok, net := { recvs := [.data [79, 75, 10], .timeout], sends := [] } }
        true jlFail).2 = false := by decide

/-- C6 amended: on every path on which the try block returns normally
after a connection was opened - missing token, peer close during
auth, auth failure, and success with or without a reply - the socket
is closed before returning; paths that exit through a raised
exception do not close it. -/
theorem c6_normal_exits_close :
    (∀ (α : Type) (cfg : NookCfg) (script : TcpScript) (wait : Bool)
       (jl : List Char → Except Unit α) (v : Option α),
       (sendViaTcpNookBody cfg script wait jl).1 = .ok v →
       hasConnect (sendViaTcpNookBody cfg script wait jl).2 = true →
       hasClose (sendViaTcpNookBody cfg script wait jl).2 = true) ∧
    (∀ (α : Type) (cfg : IslandCfg) (script : TcpScript) (wait : Bool)
       (jl : List Char → Except Unit α) (v : Option α),
       (sendViaTcpIslandBody cfg script wait jl).1 = .ok v →
       hasConnect (sendViaTcpIslandBody cfg script wait jl).2 = true →
       hasClose (sendViaTcpIslandBody cfg script wait jl).2 = true) ∧
    (∀ (α : Type) (path : String) (script : TcpScript) (wait : Bool)
       (jl : List Char → Except Unit α) (v : Option α),
       (sendViaSocketBody path script wait jl).1 = .ok v →
       hasConnect (sendViaSocketBody path script wait jl).2 = true →
       hasClose (sendViaSocketBody path script wait jl).2 = true) := by
  refine ⟨?_, ?_, ?_⟩
  · intro α cfg script wait jl v h hconn
    cases hc : script.connect with
    | timeout => simp [sendViaTcpNookBody, hc] at h
    | refused => simp [sendViaTcpNookBody, hc] at h
    | osErr => simp [sendViaTcpNookBody, hc] at h
    | fileNotFound => simp [sendViaTcpNookBody, hc] at h
    | ok =>
      cases hgt : greetingTrusted (doRecv script.net).1 with
      | error e => simp [sendViaTcpNookBody, hc, hgt] at h
      | ok trusted =>
        cases trusted with
        | true =>
          simp only [sendViaTcpNookBody, hc, hgt, if_true] at h ⊢
          have hcl := tcpFinish_ok_hasClose wait jl (doRecv script.net).2 v (by simpa using h)
          simp only [hasClose] at hcl ⊢
          simp [List.any_cons, hcl]
        | false =>
          by_cases htk : cfg.token = ""
          · simp [sendViaTcpNookBody, hc, hgt, htk, hasClose]
          · simp only [sendViaTcpNookBody, hc, hgt, htk] at h ⊢
            simp only [Bool.false_eq_true, if_false, if_neg htk] at h ⊢
            have hcl := tcpAuthPhase_ok_hasClose cfg.token wait jl (doRecv script.net).2 v
              (by simpa using h)
            simp only [hasClose] at hcl ⊢
            simp [List.any_cons, hcl]
  · intro α cfg script wait jl v h hconn
    by_cases htk : cfg.token = ""
    · simp [sendViaTcpIslandBody, htk, hasConnect] at hconn
    · cases hc : script.connect with
      | timeout => simp [sendViaTcpIslandBody, hc, htk] at h
      | refused => simp [sendViaTcpIslandBody, hc, htk] at h
      | osErr => simp [sendViaTcpIslandBody, hc, htk] at h
      | fileNotFound => simp [sendViaTcpIslandBody, hc, htk] at h
      | ok =>
        simp only [sendViaTcpIslandBody, hc, htk, if_neg htk] at h ⊢
        have hcl := tcpAuthPhase_ok_hasClose cfg.token wait jl script.net v (by simpa using h)
        simp only [hasClose] at hcl ⊢
        simp [List.any_cons, hcl]
  · intro α path script wait jl v h hconn
    cases hc : script.connect with
    | timeout => simp [sendViaSocketBody, hc] at h
    | refused => simp [sendViaSocketBody, hc] at h
    | osErr => simp [sendViaSocketBody, hc] at h
    | fileNotFound => simp [sendViaSocketBody, hc] at h
    | ok =>
      simp only [sendViaSocketBody, hc] at h ⊢
      have hcl := tcpFinish_ok_hasClose wait jl script.net v (by simpa using h)
      simp only [hasClose] at hcl ⊢
      simp [List.any_cons, hcl]

/-- C6 amended witness: a Nook attempt that aborts for want of a token
closes the socket it opened before returning. -/
theorem c6_normal_exits_close_witness :
    hasClose (sendViaTcpNookBody { hostCfg := hsPublic, token := "" }
        { connect := .ok, net := { recvs := [.timeout], sends := [] } }
        false jlFail).2 = true :=
  c6_normal_exits_close.1 Unit { hostCfg := hsPublic, token := "" }
    { connect := .ok, net := { recvs := [.timeout], sends := [] } }
    false jlFail none rfl (by decide)


end ClaudeNook
